import Mathlib

/-!
Shallow embedding of the crowd-analysis and alert-dispatch pipeline of the
CrowdSafe AI repository (src/backend/ai_detector.py, src/backend/app.py),
together with theorems settling the specification claims.

Python floats are modelled as exact rationals (the claims under study are
structural and use only small exact constants); machine time is modelled in
whole seconds as naturals.
-/

namespace CrowdSafe

/-- A detection dictionary as produced by CrowdDetector.detect_objects
(ai_detector.py lines 59-66): class label, confidence and the xyxy bounding
box; center and area are derived fields, defined below exactly as there. -/
structure Detection where
  cls : String
  confidence : ℚ
  x1 : ℚ
  y1 : ℚ
  x2 : ℚ
  y2 : ℚ
deriving DecidableEq, Inhabited

/-- detection['area'] = (x2 - x1) * (y2 - y1)   (ai_detector.py line 65). -/
def Detection.area (d : Detection) : ℚ := (d.x2 - d.x1) * (d.y2 - d.y1)

/-- detection['center'] = ((x1+x2)/2, (y1+y2)/2)   (ai_detector.py line 64). -/
def Detection.center (d : Detection) : ℚ × ℚ := ((d.x1 + d.x2) / 2, (d.y1 + d.y2) / 2)

/-- settings.crowd_density_threshold = 0.8   (config.py line 24). -/
def crowd_density_threshold : ℚ := 8 / 10

/-- settings.alert_cooldown_seconds = 30   (config.py line 25). -/
def alert_cooldown_seconds : ℕ := 30

/-- Default distance_threshold = 50.0 of _detect_clusters (ai_detector.py line 132). -/
def distance_threshold : ℚ := 50

/-- The distance test of ai_detector.py line 152-154: the source computes
sqrt(dx^2 + dy^2) < t; over the reals this is equivalent, for t ≥ 0, to
dx^2 + dy^2 < t^2, which is how we state it so that centers stay rational. -/
def closeTo (t : ℚ) (c1 c2 : ℚ × ℚ) : Bool :=
  decide ((c1.1 - c2.1) ^ 2 + (c1.2 - c2.2) ^ 2 < t ^ 2)

/-- A cluster dictionary as built at ai_detector.py lines 165-170. -/
structure Cluster where
  people_indices : List ℕ
  size : ℕ
  center : ℚ × ℚ
  risk_level : ℚ
deriving DecidableEq, Inhabited

/-- Builds the cluster record of ai_detector.py lines 159-170 from the people
list and the index list collected for one seed: size = len(cluster), center =
arithmetic mean of member centers, risk_level = min(len(cluster)/10, 1). -/
def mkCluster (people : List Detection) (idxs : List ℕ) : Cluster :=
  let centers := idxs.map (fun idx => (people.getD idx default).center)
  { people_indices := idxs
    size := idxs.length
    center := ((centers.map Prod.fst).sum / (centers.length : ℚ),
               (centers.map Prod.snd).sum / (centers.length : ℚ))
    risk_level := min ((idxs.length : ℚ) / 10) 1 }

/-- The inner loop of _detect_clusters (ai_detector.py lines 147-156): scan the
indices after the seed in order; skip any j already visited; when the center of
people[j] is within the distance threshold of the seed center, append j to the
candidate and immediately add j to visited. Returns the swept indices in scan
order together with the updated visited set. -/
def sweepLoop (people : List Detection) (t : ℚ) (c1 : ℚ × ℚ) :
    List ℕ → Finset ℕ → List ℕ × Finset ℕ
  | [], v => ([], v)
  | j :: js, v =>
    if j ∈ v then sweepLoop people t c1 js v
    else if closeTo t c1 (people.getD j default).center then
      (j :: (sweepLoop people t c1 js (insert j v)).1,
       (sweepLoop people t c1 js (insert j v)).2)
    else sweepLoop people t c1 js v

/-- One seed's sweep (ai_detector.py lines 145-156): sweepLoop run from the
seed's center over the indices strictly after the seed. -/
def seedSweep (people : List Detection) (t : ℚ) (i : ℕ) (v : Finset ℕ) :
    List ℕ × Finset ℕ :=
  sweepLoop people t (people.getD i default).center
    (List.range' (i + 1) (people.length - (i + 1))) v

/-- The outer loop of _detect_clusters (ai_detector.py lines 140-175): iterate
seeds in index order, skipping visited ones; sweep the later indices; when the
candidate (seed included) has at least 3 members, emit the cluster and mark all
its members visited; otherwise continue with the visited set as the sweep left
it (swept members stay visited, the seed does not). -/
def clusterLoop (people : List Detection) (t : ℚ) :
    List ℕ → Finset ℕ → List Cluster
  | [], _ => []
  | i :: is, v =>
    if i ∈ v then clusterLoop people t is v
    else
      if 3 ≤ (i :: (seedSweep people t i v).1).length then
        mkCluster people (i :: (seedSweep people t i v).1) ::
          clusterLoop people t is
            ((seedSweep people t i v).2 ∪ (i :: (seedSweep people t i v).1).toFinset)
      else
        clusterLoop people t is (seedSweep people t i v).2

/-- CrowdDetector._detect_clusters (ai_detector.py lines 132-175): fewer than
2 people yield no clusters; otherwise run the greedy scan over all indices. -/
def detect_clusters (people : List Detection) (t : ℚ) : List Cluster :=
  if people.length < 2 then []
  else clusterLoop people t (List.range people.length) ∅

/-- The result dictionary of CrowdDetector.analyze_crowd
(ai_detector.py lines 110-118). -/
structure CrowdMetrics where
  person_count : ℕ
  density : ℚ
  safety_score : ℚ
  issues : List String
  clusters : List Cluster
  frame_area : ℕ
  person_area : ℚ
deriving DecidableEq

/-- The final clamp of ai_detector.py line 108: max(0, min(100, safety_score)). -/
def clamp_score (x : ℚ) : ℚ := max 0 (min 100 x)

/-- The body of CrowdDetector.analyze_crowd (ai_detector.py lines 77-118),
with the frame given by its pixel width and height: filter detections to class
person, density = min(total person area / frame area, 1) when the frame area is
positive else 0, baseline safety = max(0, 100 - density*100), an overcrowding
issue when density exceeds the threshold, clustering only when more than 5
people, a clustering issue and a 5-point deduction per cluster, and the final
clamp of the safety score to [0, 100]. -/
def analyze_crowd (frameWidth frameHeight : ℕ) (detections : List Detection) :
    CrowdMetrics :=
  let people := detections.filter (fun d => d.cls == "person")
  let frame_area := frameWidth * frameHeight
  let total_person_area := (people.map Detection.area).sum
  let density : ℚ :=
    if 0 < frame_area then min (total_person_area / (frame_area : ℚ)) 1 else 0
  let safety0 : ℚ := max 0 (100 - density * 100)
  let densityIssues :=
    if crowd_density_threshold < density then ["High crowd density detected"] else []
  let clusters :=
    if 5 < people.length then detect_clusters people distance_threshold else []
  let clusterIssues :=
    if 0 < clusters.length then
      ["Crowd clustering detected: " ++ toString clusters.length ++ " clusters"]
    else []
  let safety1 :=
    if 0 < clusters.length then safety0 - (clusters.length : ℚ) * 5 else safety0
  { person_count := people.length
    density := density
    safety_score := clamp_score safety1
    issues := densityIssues ++ clusterIssues
    clusters := clusters
    frame_area := frame_area
    person_area := total_person_area }

/-- The safe-default dictionary returned by the except branch of analyze_crowd
(ai_detector.py lines 122-130). -/
def safe_default_metrics : CrowdMetrics :=
  { person_count := 0
    density := 0
    safety_score := 100
    issues := []
    clusters := []
    frame_area := 0
    person_area := 0 }

/-- CrowdDetector.analyze_crowd with its try/except boundary
(ai_detector.py lines 77-130): an exception raised anywhere in the body is
modelled by the internalError flag; when it fires the function returns the
safe default, otherwise the body's result. -/
def analyze_crowd_total (frameWidth frameHeight : ℕ) (detections : List Detection)
    (internalError : Bool) : CrowdMetrics :=
  if internalError then safe_default_metrics
  else analyze_crowd frameWidth frameHeight detections

/-- The .seconds component of a nonnegative Python timedelta: the whole-second
remainder after removing whole days (0 ≤ .seconds < 86400). app.py line 143
reads this component, not total_seconds(). -/
def timedelta_seconds (totalSeconds : ℕ) : ℕ := totalSeconds % 86400

/-- The fields of the Alert model (models.py lines 24-34) that the alert paths
of app.py set explicitly; id, timestamp, resolved and metadata are filled by
external uuid/clock defaults and are elided. -/
structure Alert where
  message : String
  severity : String
  location : String
  crowd_density : ℚ
deriving DecidableEq

/-- The Analytics snapshot (models.py lines 36-42) restricted to the fields the
alert paths read or write. -/
structure Analytics where
  crowd_density : ℚ
  person_count : ℕ
  safety_score : ℚ
deriving DecidableEq

/-- The alert gate of process_video_frame (app.py lines 137-166), taking the
density of the current frame, the current time and the last_alert_time (both
in whole seconds, now assumed at or after last_alert_time): when the density
exceeds the threshold and the .seconds component of now - last_alert_time
reaches the cooldown, an alert is produced and last_alert_time becomes now;
otherwise no alert and last_alert_time is unchanged. The numeric percentage
formatted into the message string is elided. -/
def process_video_frame_alert (density : ℚ) (now last_alert_time : ℕ) :
    Option Alert × ℕ :=
  if crowd_density_threshold < density then
    if alert_cooldown_seconds ≤ timedelta_seconds (now - last_alert_time) then
      (some { message := "High crowd density detected"
              severity := "high"
              location := "Main Area"
              crowd_density := density }, now)
    else (none, last_alert_time)
  else (none, last_alert_time)

/-- The JSON body of a POST /api/alerts request: each field the handler reads
with .get, present or missing; crowd_density stands for any density a caller
might put in the body, which the handler never reads. -/
structure AlertRequest where
  message : Option String
  severity : Option String
  location : Option String
  crowd_density : Option ℚ
deriving DecidableEq

/-- The process-wide mutable state the alert endpoints touch: the Analytics
snapshot and last_alert_time (app.py lines 89-90). -/
structure AppState where
  current_analytics : Analytics
  last_alert_time : ℕ
deriving DecidableEq

/-- The create_alert handler for POST /api/alerts (app.py lines 237-257):
builds an Alert from the request body with defaults for missing fields and
crowd_density taken from the current Analytics snapshot, unconditionally
produces it, and touches no global state. -/
def create_alert (req : AlertRequest) (st : AppState) : Option Alert × AppState :=
  (some { message := req.message.getD "Manual alert"
          severity := req.severity.getD "medium"
          location := req.location.getD "Unknown"
          crowd_density := st.current_analytics.crowd_density }, st)

/-- A registered WebSocket subscriber; fails models a subscriber whose
send_text raises (closed or full channel) during this broadcast. -/
structure Subscriber where
  id : ℕ
  fails : Bool
deriving DecidableEq

/-- The ConnectionManager state (app.py lines 54-56). -/
structure ConnectionManager where
  active_connections : List Subscriber
deriving DecidableEq

/-- The send loop of ConnectionManager.broadcast (app.py lines 75-80): try each
connection in order; a connection whose send raises is collected in the
disconnected list, the others receive the message. Returns (delivered,
disconnected), each in iteration order. -/
def sendLoop : List Subscriber → List Subscriber × List Subscriber
  | [] => ([], [])
  | c :: cs =>
    if c.fails then ((sendLoop cs).1, c :: (sendLoop cs).2)
    else (c :: (sendLoop cs).1, (sendLoop cs).2)

/-- ConnectionManager.disconnect (app.py lines 63-66): remove the websocket
from active_connections if present (list.remove drops the first occurrence),
a no-op otherwise. -/
def disconnect (m : ConnectionManager) (ws : Subscriber) : ConnectionManager :=
  if ws ∈ m.active_connections then
    { active_connections := m.active_connections.erase ws }
  else m

/-- ConnectionManager.broadcast (app.py lines 74-84): send to every active
connection, then disconnect each connection that failed. Returns the list of
subscribers the message reached and the manager state afterwards; the message
itself does not influence membership. -/
def broadcast (m : ConnectionManager) (message : String) :
    List Subscriber × ConnectionManager :=
  ((sendLoop m.active_connections).1,
   (sendLoop m.active_connections).2.foldl disconnect m)

/-- The video-processing globals that stop_monitoring touches
(app.py lines 92-94): the processing flag and the capture handle (None or an
opaque handle, here a number). -/
structure VideoState where
  processing_active : Bool
  video_capture : Option ℕ
deriving DecidableEq

/-- The stop_monitoring handler for POST /api/stop-monitoring
(app.py lines 303-314): clear the processing flag; when a capture handle is
held, release it and set the handle to None. Returns the new state together
with the number of release() calls performed. -/
def stop_monitoring (s : VideoState) : VideoState × ℕ :=
  match s.video_capture with
  | some _ => ({ processing_active := false, video_capture := none }, 1)
  | none => ({ processing_active := false, video_capture := none }, 0)

/-- Modelled from the claim's words for comparison with detect_clusters: the
variant of the clustering pass in which a failed candidate (fewer than 3
members) leaves every swept person unassigned, so that each of them stays
eligible to join a cluster formed by a later seed. Differs from the source
only in the failure branch, which restores the visited set. -/
def clusterLoopClaim (people : List Detection) (t : ℚ) :
    List ℕ → Finset ℕ → List Cluster
  | [], _ => []
  | i :: is, v =>
    if i ∈ v then clusterLoopClaim people t is v
    else
      if 3 ≤ (i :: (seedSweep people t i v).1).length then
        mkCluster people (i :: (seedSweep people t i v).1) ::
          clusterLoopClaim people t is
            ((seedSweep people t i v).2 ∪ (i :: (seedSweep people t i v).1).toFinset)
      else
        clusterLoopClaim people t is v

/-- Modelled from the claim's words: detect_clusters with the failure branch
of clusterLoopClaim. -/
def detect_clusters_claim (people : List Detection) (t : ℚ) : List Cluster :=
  if people.length < 2 then []
  else clusterLoopClaim people t (List.range people.length) ∅

/-- A detection of class person centred at (cx, cy) with a 2-by-2 box, used as
concrete input. -/
def personAt (cx cy : ℚ) : Detection :=
  { cls := "person", confidence := 9 / 10,
    x1 := cx - 1, y1 := cy - 1, x2 := cx + 1, y2 := cy + 1 }

/-- Concrete five-person frame: person 2 is within 50 px of both person 0 and
person 1; persons 3 and 4 are within 50 px of person 1 only; person 0 and
person 1 are more than 50 px apart. -/
def exPeople : List Detection :=
  [personAt 0 0, personAt 60 0, personAt 30 0, personAt 60 5, personAt 60 10]

lemma clamp_score_bounds (x : ℚ) : 0 ≤ clamp_score x ∧ clamp_score x ≤ 100 :=
  ⟨le_max_left 0 _, max_le (by norm_num) (min_le_left _ _)⟩

/-- Claim C4: for every input to the metrics engine the returned safety_score
lies in [0, 100] after all adjustments, however many people or clusters the
detection list produces. -/
theorem C4_safety_score_in_bounds (w h : ℕ) (dets : List Detection) :
    0 ≤ (analyze_crowd w h dets).safety_score ∧
    (analyze_crowd w h dets).safety_score ≤ 100 := by
  obtain ⟨y, hy⟩ : ∃ y, (analyze_crowd w h dets).safety_score = clamp_score y :=
    ⟨_, rfl⟩
  rw [hy]
  exact clamp_score_bounds y

/-- Claim C3: for detections with well-formed bounding boxes (x1 ≤ x2 and
y1 ≤ y2, as the xyxy boxes of the detector satisfy), the density equals
min(1, total person area / frame area) whenever the frame area is positive and
is 0 when the frame area is 0, and it always lies in [0, 1]. -/
theorem C3_density_formula (w h : ℕ) (dets : List Detection)
    (hb : ∀ d ∈ dets, d.x1 ≤ d.x2 ∧ d.y1 ≤ d.y2) :
    (analyze_crowd w h dets).density =
      (if 0 < w * h then
        min 1 (((dets.filter (fun d => d.cls == "person")).map Detection.area).sum
                / ((w * h : ℕ) : ℚ))
       else 0) ∧
    0 ≤ (analyze_crowd w h dets).density ∧ (analyze_crowd w h dets).density ≤ 1 := by
  have hdef : (analyze_crowd w h dets).density =
      (if 0 < w * h then
        min (((dets.filter (fun d => d.cls == "person")).map Detection.area).sum
              / ((w * h : ℕ) : ℚ)) 1
       else 0) := rfl
  have hsum : 0 ≤ ((dets.filter (fun d => d.cls == "person")).map Detection.area).sum := by
    apply List.sum_nonneg
    intro x hx
    simp only [List.mem_map] at hx
    obtain ⟨d, hd, rfl⟩ := hx
    have hdd := hb d (List.mem_of_mem_filter hd)
    exact mul_nonneg (by linarith [hdd.1]) (by linarith [hdd.2])
  refine ⟨?_, ?_, ?_⟩
  · rw [hdef]
    split_ifs
    · exact min_comm _ _
    · rfl
  · rw [hdef]
    split_ifs with hpos
    · have hA : (0 : ℚ) ≤ ((w * h : ℕ) : ℚ) := by positivity
      exact le_min (div_nonneg hsum hA) zero_le_one
    · exact le_refl 0
  · rw [hdef]
    split_ifs
    · exact min_le_right _ 1
    · norm_num

/-- Witness for C3 at a concrete 100 by 100 frame with one person detection. -/
theorem C3_density_formula_witness :
    (analyze_crowd 100 100 [personAt 0 0]).density =
      (if 0 < 100 * 100 then
        min 1 ((([personAt 0 0].filter (fun d => d.cls == "person")).map Detection.area).sum
                / ((100 * 100 : ℕ) : ℚ))
       else 0) ∧
    0 ≤ (analyze_crowd 100 100 [personAt 0 0]).density ∧
    (analyze_crowd 100 100 [personAt 0 0]).density ≤ 1 :=
  C3_density_formula 100 100 [personAt 0 0]
    (by
      intro d hd
      simp only [List.mem_singleton] at hd
      subst hd
      constructor <;> norm_num [personAt])

/-- Claim C5: the metrics engine never raises past its boundary; when an
internal error fires it returns exactly the safe default
(person_count 0, density 0, safety_score 100, no issues, no clusters),
otherwise the body's result, so callers always receive a usable value. -/
theorem C5_safe_default_on_error (w h : ℕ) (dets : List Detection) (e : Bool) :
    (analyze_crowd_total w h dets e = analyze_crowd w h dets ∨
     analyze_crowd_total w h dets e = safe_default_metrics) ∧
    analyze_crowd_total w h dets true = safe_default_metrics ∧
    safe_default_metrics.person_count = 0 ∧
    safe_default_metrics.density = 0 ∧
    safe_default_metrics.safety_score = 100 ∧
    safe_default_metrics.issues = [] ∧
    safe_default_metrics.clusters = [] := by
  refine ⟨?_, rfl, rfl, rfl, rfl, rfl, rfl⟩
  cases e
  · exact Or.inl rfl
  · exact Or.inr rfl

/-- Claim C7: the manual-alert entry point produces an alert for every request
and every current state (hence every cooldown state and density), and leaves
the whole mutable state, in particular last_alert_time, unchanged. -/
theorem C7_manual_alert_always_fires (req : AlertRequest) (st : AppState) :
    ((create_alert req st).1).isSome = true ∧
    (create_alert req st).2 = st ∧
    (create_alert req st).2.last_alert_time = st.last_alert_time :=
  ⟨rfl, rfl, rfl⟩

/-- Claim C10: missing manual-alert fields are filled with the defaults
"Manual alert", "medium" and "Unknown", and the created alert's crowd_density
comes from the current Analytics snapshot; a crowd_density value placed in the
request body has no effect on the result. -/
theorem C10_manual_alert_defaults (req : AlertRequest) (st : AppState) (q : ℚ) :
    (create_alert req st).1 =
      some { message := req.message.getD "Manual alert"
             severity := req.severity.getD "medium"
             location := req.location.getD "Unknown"
             crowd_density := st.current_analytics.crowd_density } ∧
    create_alert { req with crowd_density := some q } st = create_alert req st :=
  ⟨rfl, rfl⟩

/-- Claim C9: stopping while running releases the video source exactly once,
and a second consecutive stop performs no further release and leaves the state
exactly where the first stop left it. -/
theorem C9_stop_idempotent (s : VideoState) (c : ℕ)
    (hrun : s.processing_active = true) (hcap : s.video_capture = some c) :
    (stop_monitoring s).2 = 1 ∧
    stop_monitoring (stop_monitoring s).1 = ((stop_monitoring s).1, 0) ∧
    (stop_monitoring s).2 + (stop_monitoring (stop_monitoring s).1).2 = 1 := by
  simp [stop_monitoring, hcap]

/-- Witness for C9 at a concrete running state holding capture handle 0. -/
theorem C9_stop_idempotent_witness :
    (stop_monitoring ⟨true, some 0⟩).2 = 1 ∧
    stop_monitoring (stop_monitoring ⟨true, some 0⟩).1 =
      ((stop_monitoring ⟨true, some 0⟩).1, 0) ∧
    (stop_monitoring ⟨true, some 0⟩).2 +
      (stop_monitoring (stop_monitoring ⟨true, some 0⟩).1).2 = 1 :=
  C9_stop_idempotent ⟨true, some 0⟩ 0 rfl rfl

/-- Claim C1 is violated by the code: app.py line 143 compares the cooldown
against the .seconds component of the elapsed timedelta, not the total elapsed
seconds. At density 9/10 (above the 8/10 threshold) with last_alert_time 0 and
now exactly one day (86400 s) later, the total elapsed time 86400 is at least
the 30 s cooldown, yet no alert is produced and last_alert_time stays 0,
because the .seconds component 86400 mod 86400 = 0 is below the cooldown. -/
theorem C1_day_boundary_suppresses_alert :
    process_video_frame_alert (9 / 10) 86400 0 = (none, 0) ∧
    crowd_density_threshold < 9 / 10 ∧
    alert_cooldown_seconds ≤ 86400 - 0 := by
  refine ⟨?_, by norm_num [crowd_density_threshold], by norm_num [alert_cooldown_seconds]⟩
  norm_num [process_video_frame_alert, crowd_density_threshold, timedelta_seconds,
    alert_cooldown_seconds]

set_option maxHeartbeats 2000000 in
/-- Claim C2 is false at exPeople: person 2 is within the 50 px threshold of
seed 0 (third conjunct) and is swept into seed 0's candidate, which fails with
2 members; person 2 is also within the threshold of the later seed 1 (fourth
conjunct), whose cluster is emitted, yet the source emits [1, 3, 4] without
person 2 (first conjunct), while the clustering the claim describes, in which
members of a failed candidate stay eligible, emits [1, 2, 3, 4] (second
conjunct). -/
theorem C2_swept_member_stays_ineligible :
    (detect_clusters exPeople 50).map Cluster.people_indices = [[1, 3, 4]] ∧
    (detect_clusters_claim exPeople 50).map Cluster.people_indices = [[1, 2, 3, 4]] ∧
    closeTo 50 (exPeople.getD 0 default).center (exPeople.getD 2 default).center = true ∧
    closeTo 50 (exPeople.getD 1 default).center (exPeople.getD 2 default).center = true := by
  refine ⟨?_, ?_, ?_, ?_⟩
  · norm_num [detect_clusters, clusterLoop, seedSweep, sweepLoop, closeTo, exPeople,
      personAt, Detection.center, mkCluster, List.range_succ]
  · norm_num [detect_clusters_claim, clusterLoopClaim, seedSweep, sweepLoop, closeTo,
      exPeople, personAt, Detection.center, mkCluster, List.range_succ]
  · norm_num [closeTo, exPeople, personAt, Detection.center]
  · norm_num [closeTo, exPeople, personAt, Detection.center]

lemma sendLoop_fst (l : List Subscriber) :
    (sendLoop l).1 = l.filter (fun s => !s.fails) := by
  induction l with
  | nil => rfl
  | cons c cs ih => cases hc : c.fails <;> simp [sendLoop, hc, ih, List.filter_cons]

lemma sendLoop_snd (l : List Subscriber) :
    (sendLoop l).2 = l.filter (fun s => s.fails) := by
  induction l with
  | nil => rfl
  | cons c cs ih => cases hc : c.fails <;> simp [sendLoop, hc, ih, List.filter_cons]

lemma disconnect_eq (l : List Subscriber) (hl : l.Nodup) (d : Subscriber) :
    disconnect ⟨l⟩ d = ⟨l.filter (fun s => s != d)⟩ := by
  unfold disconnect
  by_cases hd : d ∈ l
  · simp only [hd, if_pos]
    exact congrArg ConnectionManager.mk (List.Nodup.erase_eq_filter hl d)
  · simp only [hd, if_neg, not_false_iff]
    refine congrArg ConnectionManager.mk ?_
    refine (List.filter_eq_self.mpr fun a ha => ?_).symm
    simp only [bne_iff_ne, ne_eq]
    exact fun h => hd (h ▸ ha)

lemma foldl_disconnect (ds : List Subscriber) :
    ∀ l : List Subscriber, l.Nodup →
      ds.foldl disconnect ⟨l⟩ = ⟨l.filter (fun s => !ds.contains s)⟩ := by
  induction ds with
  | nil =>
    intro l _
    simp [List.foldl_nil]
  | cons d ds ih =>
    intro l hl
    rw [List.foldl_cons, disconnect_eq l hl d,
      ih (l.filter (fun s => s != d)) (List.Nodup.filter _ hl)]
    refine congrArg ConnectionManager.mk ?_
    rw [List.filter_filter]
    refine List.filter_congr fun x hx => ?_
    simp only [List.contains_cons, Bool.not_or, Bool.and_comm, bne]

/-- Claim C6: a broadcast delivers the payload to every registered subscriber
whose send does not fail, failing subscribers do not prevent delivery to the
others, and exactly the failing subscribers are removed from the registered
list as a side effect. -/
theorem C6_broadcast_isolates_failures (m : ConnectionManager) (msg : String)
    (hnd : m.active_connections.Nodup) :
    (broadcast m msg).1 = m.active_connections.filter (fun s => !s.fails) ∧
    (broadcast m msg).2.active_connections =
      m.active_connections.filter (fun s => !s.fails) := by
  obtain ⟨l⟩ := m
  refine ⟨sendLoop_fst l, ?_⟩
  show ((sendLoop l).2.foldl disconnect ⟨l⟩).active_connections = _
  rw [sendLoop_snd l, foldl_disconnect _ l hnd]
  refine List.filter_congr fun x hx => ?_
  cases hf : x.fails <;> simp [List.mem_filter, hx, hf]

/-- Witness for C6: three registered subscribers of which the middle one
fails; the payload reaches the other two and exactly those two remain
registered. -/
theorem C6_broadcast_isolates_failures_witness :
    (broadcast ⟨[⟨1, false⟩, ⟨2, true⟩, ⟨3, false⟩]⟩ "x").1 =
      [⟨1, false⟩, ⟨2, true⟩, ⟨3, false⟩].filter (fun s => !s.fails) ∧
    (broadcast ⟨[⟨1, false⟩, ⟨2, true⟩, ⟨3, false⟩]⟩ "x").2.active_connections =
      [⟨1, false⟩, ⟨2, true⟩, ⟨3, false⟩].filter (fun s => !s.fails) :=
  C6_broadcast_isolates_failures ⟨[⟨1, false⟩, ⟨2, true⟩, ⟨3, false⟩]⟩ "x"
    (by simp)

lemma sweepLoop_snd_eq (people : List Detection) (t : ℚ) (c1 : ℚ × ℚ) :
    ∀ (js : List ℕ) (v : Finset ℕ),
      (sweepLoop people t c1 js v).2 = v ∪ (sweepLoop people t c1 js v).1.toFinset := by
  intro js
  induction js with
  | nil => intro v; simp [sweepLoop]
  | cons j js ih =>
    intro v
    by_cases hv : j ∈ v
    · rw [sweepLoop, if_pos hv, ih v]
    · by_cases hc : closeTo t c1 (people.getD j default).center
      · rw [sweepLoop, if_neg hv, if_pos hc]
        simp only [List.toFinset_cons]
        rw [ih (insert j v), Finset.insert_union, Finset.union_insert]
      · rw [sweepLoop, if_neg hv, if_neg hc, ih v]

lemma sweepLoop_mem (people : List Detection) (t : ℚ) (c1 : ℚ × ℚ) :
    ∀ (js : List ℕ) (v : Finset ℕ),
      ∀ x ∈ (sweepLoop people t c1 js v).1, x ∉ v ∧ x ∈ js := by
  intro js
  induction js with
  | nil => intro v x hx; simp [sweepLoop] at hx
  | cons j js ih =>
    intro v x hx
    by_cases hv : j ∈ v
    · rw [sweepLoop, if_pos hv] at hx
      obtain ⟨h1, h2⟩ := ih v x hx
      exact ⟨h1, List.mem_cons_of_mem j h2⟩
    · by_cases hc : closeTo t c1 (people.getD j default).center
      · rw [sweepLoop, if_neg hv, if_pos hc] at hx
        rcases List.mem_cons.mp hx with rfl | hx'
        · exact ⟨hv, List.mem_cons_self x js⟩
        · obtain ⟨h1, h2⟩ := ih (insert j v) x hx'
          exact ⟨fun hxv => h1 (Finset.mem_insert_of_mem hxv),
            List.mem_cons_of_mem j h2⟩
      · rw [sweepLoop, if_neg hv, if_neg hc] at hx
        obtain ⟨h1, h2⟩ := ih v x hx
        exact ⟨h1, List.mem_cons_of_mem j h2⟩

lemma sweepLoop_nodup (people : List Detection) (t : ℚ) (c1 : ℚ × ℚ) :
    ∀ (js : List ℕ) (v : Finset ℕ), (sweepLoop people t c1 js v).1.Nodup := by
  intro js
  induction js with
  | nil => intro v; simp [sweepLoop]
  | cons j js ih =>
    intro v
    by_cases hv : j ∈ v
    · rw [sweepLoop, if_pos hv]; exact ih v
    · by_cases hc : closeTo t c1 (people.getD j default).center
      · rw [sweepLoop, if_neg hv, if_pos hc]
        refine List.nodup_cons.mpr ⟨fun hj => ?_, ih (insert j v)⟩
        exact (sweepLoop_mem people t c1 js (insert j v) j hj).1 (Finset.mem_insert_self j v)
      · rw [sweepLoop, if_neg hv, if_neg hc]; exact ih v

lemma seedSweep_snd_eq (people : List Detection) (t : ℚ) (i : ℕ) (v : Finset ℕ) :
    (seedSweep people t i v).2 = v ∪ (seedSweep people t i v).1.toFinset :=
  sweepLoop_snd_eq people t _ _ v

lemma seedSweep_mem (people : List Detection) (t : ℚ) (i : ℕ) (v : Finset ℕ) :
    ∀ x ∈ (seedSweep people t i v).1, x ∉ v ∧ i < x := by
  intro x hx
  obtain ⟨h1, h2⟩ := sweepLoop_mem people t _ _ v x hx
  rw [List.mem_range'_1] at h2
  exact ⟨h1, by omega⟩

lemma clusterLoop_spec (people : List Detection) (t : ℚ) :
    ∀ (is : List ℕ) (v : Finset ℕ),
      (∀ c ∈ clusterLoop people t is v,
          c.size = c.people_indices.length ∧ 3 ≤ c.people_indices.length ∧
          c.people_indices.Nodup ∧ ∀ x ∈ c.people_indices, x ∉ v) ∧
      (clusterLoop people t is v).Pairwise
        (fun c1 c2 => ∀ x ∈ c1.people_indices, x ∉ c2.people_indices) := by
  intro is
  induction is with
  | nil => intro v; simp [clusterLoop]
  | cons i is ih =>
    intro v
    by_cases hv : i ∈ v
    · rw [clusterLoop, if_pos hv]; exact ih v
    · by_cases hlen : 3 ≤ (i :: (seedSweep people t i v).1).length
      · rw [clusterLoop, if_neg hv, if_pos hlen]
        have hsnd := seedSweep_snd_eq people t i v
        have hmem := seedSweep_mem people t i v
        have hnd : (seedSweep people t i v).1.Nodup := sweepLoop_nodup people t _ _ v
        obtain ⟨ih1, ih2⟩ :=
          ih ((seedSweep people t i v).2 ∪ (i :: (seedSweep people t i v).1).toFinset)
        have hvsub : v ⊆ (seedSweep people t i v).2 ∪
            (i :: (seedSweep people t i v).1).toFinset := by
          intro y hy
          exact Finset.mem_union_left _ (hsnd ▸ Finset.mem_union_left _ hy)
        constructor
        · intro c hc
          rcases List.mem_cons.mp hc with rfl | hc'
          · refine ⟨rfl, hlen, ?_, ?_⟩
            · refine List.nodup_cons.mpr ⟨fun hi => ?_, hnd⟩
              exact absurd rfl (Nat.ne_of_lt (hmem i hi).2).symm
            · intro x hx
              rcases List.mem_cons.mp hx with rfl | hx'
              · exact hv
              · exact (hmem x hx').1
          · obtain ⟨h1, h2, h3, h4⟩ := ih1 c hc'
            exact ⟨h1, h2, h3, fun x hx hxv => h4 x hx (hvsub hxv)⟩
        · rw [List.pairwise_cons]
          refine ⟨fun c hc x hx hxc => ?_, ih2⟩
          refine (ih1 c hc).2.2.2 x hxc ?_
          exact Finset.mem_union_right _ (List.mem_toFinset.mpr hx)
      · rw [clusterLoop, if_neg hv, if_neg hlen]
        have hsnd := seedSweep_snd_eq people t i v
        obtain ⟨ih1, ih2⟩ := ih (seedSweep people t i v).2
        refine ⟨fun c hc => ?_, ih2⟩
        obtain ⟨h1, h2, h3, h4⟩ := ih1 c hc
        refine ⟨h1, h2, h3, fun x hx hxv => ?_⟩
        exact h4 x hx (hsnd ▸ Finset.mem_union_left _ hxv)

/-- Claim C8: every cluster emitted by the clustering pass has size equal to
the number of its member indices (the index list has no duplicates) and size
at least 3, and the emitted clusters are pairwise disjoint, so a person index
appears in at most one cluster. -/
theorem C8_cluster_invariants (people : List Detection) (t : ℚ) :
    (∀ c ∈ detect_clusters people t,
        c.size = c.people_indices.length ∧ 3 ≤ c.size ∧ c.people_indices.Nodup) ∧
    (detect_clusters people t).Pairwise
      (fun c1 c2 => ∀ x ∈ c1.people_indices, x ∉ c2.people_indices) := by
  unfold detect_clusters
  split
  · simp
  · obtain ⟨h1, h2⟩ := clusterLoop_spec people t (List.range people.length) ∅
    refine ⟨fun c hc => ?_, h2⟩
    obtain ⟨ha, hb, hd, _⟩ := h1 c hc
    exact ⟨ha, ha ▸ hb, hd⟩

/-- Amended claim C2: when a seed's candidate cluster ends with fewer than 3
members, the loop continues with every swept member marked visited, and none
of those swept members belongs to any cluster emitted by the rest of the scan,
whatever seeds remain; only the seed itself is left unmarked. -/
theorem C2_amended_swept_members_excluded (people : List Detection) (t : ℚ)
    (i : ℕ) (is' : List ℕ) (v : Finset ℕ) (hv : i ∉ v)
    (hfail : ¬ 3 ≤ (i :: (seedSweep people t i v).1).length) :
    clusterLoop people t (i :: is') v =
      clusterLoop people t is' (seedSweep people t i v).2 ∧
    ∀ x ∈ (seedSweep people t i v).1,
      ∀ c ∈ clusterLoop people t is' (seedSweep people t i v).2,
        x ∉ c.people_indices := by
  refine ⟨by rw [clusterLoop, if_neg hv, if_neg hfail], ?_⟩
  intro x hx c hc hxc
  refine ((clusterLoop_spec people t is' (seedSweep people t i v).2).1 c hc).2.2.2 x hxc ?_
  rw [seedSweep_snd_eq]
  exact Finset.mem_union_right _ (List.mem_toFinset.mpr hx)

/-- Witness for the amended C2 at exPeople: seed 0 sweeps person 2 into a
two-member candidate that fails, and person 2 then belongs to no cluster the
remaining scan emits. -/
theorem C2_amended_swept_members_excluded_witness :
    (clusterLoop exPeople 50 (0 :: [1, 2, 3, 4]) ∅ =
      clusterLoop exPeople 50 [1, 2, 3, 4] (seedSweep exPeople 50 0 ∅).2) ∧
    ∀ x ∈ (seedSweep exPeople 50 0 ∅).1,
      ∀ c ∈ clusterLoop exPeople 50 [1, 2, 3, 4] (seedSweep exPeople 50 0 ∅).2,
        x ∉ c.people_indices :=
  C2_amended_swept_members_excluded exPeople 50 0 [1, 2, 3, 4] ∅
    (Finset.not_mem_empty 0)
    (by norm_num [seedSweep, sweepLoop, closeTo, exPeople, personAt, Detection.center])

end CrowdSafe
